import Mathlib

/-!
Verification of the bearer-token authentication fragment of foodisave.se
(backend/app/security.py and backend/app/api/v1/core/user_endpoints/authentication.py).

Shallow embedding conventions:
* Instants are integers counting minutes since an epoch (UTC); `timedelta(minutes=m)`
  is the integer `m`, and `datetime.date()` is floor division by 1440 (minutes per day).
* The database is a pair of lists: the `Users` relation and the `Token` relation.
  SQLAlchemy mutation + `db.commit()` of an ORM user object is modelled as replacing
  every row with the object's primary key by the mutated row.
* `HTTPException` is a status code plus detail string; raising is `Except.error`.
* Functions that may mutate the database return the post-state paired with the result,
  so a raised exception after `db.commit()` still carries the committed state.
* `pwd_context.verify` is an external collaborator and is passed in as a function.
-/

/-- A row of the Users relation (app.api.v1.core.models.Users), restricted to the
columns this fragment reads or writes. -/
structure Users where
  id : Nat
  email : String
  hashed_password : String
  is_active : Bool
  is_admin : Bool
  credits : Int
  last_credit_refill : Option Int
  last_login_credit : Option Int
  deriving Repr, DecidableEq

/-- A row of the Token relation (app.api.v1.core.models.Token). -/
structure Token where
  token : String
  user_id : Nat
  created_at : Int
  deriving Repr, DecidableEq

/-- The shared persistent state: the two relations this fragment touches. -/
structure DB where
  users : List Users
  tokens : List Token
  deriving Repr, DecidableEq

/-- `HTTPException(status_code, detail)`; the `WWW-Authenticate: Bearer` header is
attached to every exception in this fragment and is not modelled. -/
structure HTTPException where
  status_code : Nat
  detail : String
  deriving Repr, DecidableEq

/-- `datetime.date()` on a UTC instant measured in minutes: the calendar day,
floor division by the 1440 minutes of a day. -/
def dateOf (t : Int) : Int := t.fdiv 1440

/-- security.py `verify_token_access`: select the first Token row whose `token`
column equals the presented string and whose `created_at` is within `maxAge`
minutes of `now` (`Token.created_at >= datetime.now(UTC) - max_age`); raise
HTTP 401 "Token invalid or expired" when no row matches. -/
def verify_token_access (token_str : String) (now maxAge : Int) (db : DB) :
    Except HTTPException Token :=
  match db.tokens.find? (fun r => r.token == token_str && decide (now - maxAge ≤ r.created_at)) with
  | some t => Except.ok t
  | none => Except.error ⟨401, "Token invalid or expired"⟩

/-- The guard of the credit-refill branch of security.py `get_current_user`
(line 105): `user.credits == 0 and user.last_credit_refill is not None and
now.date() > user.last_credit_refill.date()`. -/
def refillGuard (u : Users) (now : Int) : Bool :=
  u.credits == 0 &&
    (match u.last_credit_refill with
     | some x => decide (dateOf x < dateOf now)
     | none => false)

/-- The credit-refill branch of `get_current_user` (lines 105-107):
when the guard holds, `user.credits += 10; user.last_credit_refill = now`. -/
def applyRefill (u : Users) (now : Int) : Users :=
  if refillGuard u now then
    { u with credits := u.credits + 10, last_credit_refill := some now }
  else u

/-- The guard of the login-bonus branch of `get_current_user` (line 110):
`not user.last_login_credit or user.last_login_credit.date() != now.date()`
(a datetime is falsy only when it is None). -/
def bonusGuard (u : Users) (now : Int) : Bool :=
  match u.last_login_credit with
  | none => true
  | some x => decide (dateOf x ≠ dateOf now)

/-- The login-bonus branch of `get_current_user` (lines 110-112):
when the guard holds, `user.credits += 1; user.last_login_credit = now`. -/
def applyBonus (u : Users) (now : Int) : Users :=
  if bonusGuard u now then
    { u with credits := u.credits + 1, last_login_credit := some now }
  else u

/-- Both credit mutations of `get_current_user`, in source order:
the refill branch first, then the login-bonus branch. -/
def applyCredits (u : Users) (now : Int) : Users :=
  applyBonus (applyRefill u now) now

/-- `db.commit()` after mutating the ORM user object with primary key `uid`:
every row of the Users relation with that key takes the mutated column values. -/
def updateUsers (uid : Nat) (now : Int) (us : List Users) : List Users :=
  us.map (fun v => if v.id == uid then applyCredits v now else v)

/-- `token_obj.user`: the relationship lookup resolving a Token row's `user_id`
foreign key to its Users row. -/
def lookupUser (uid : Nat) (us : List Users) : Option Users :=
  us.find? (fun v => v.id == uid)

/-- security.py `get_current_user` (lines 96-123): verify the token, load the
owning user, apply the refill and login-bonus branches, commit, and only then
raise HTTP 403 if the user is not active.  The post-state is returned in both
the success and the failure case; a missing foreign-key target (impossible in
the real schema) surfaces as an HTTP 500. -/
def get_current_user (token_str : String) (now maxAge : Int) (db : DB) :
    DB × Except HTTPException Users :=
  match verify_token_access token_str now maxAge db with
  | Except.error e => (db, Except.error e)
  | Except.ok token_obj =>
    match lookupUser token_obj.user_id db.users with
    | none => (db, Except.error ⟨500, "Internal Server Error"⟩)
    | some user =>
      let refreshed := applyCredits user now
      let committed : DB := { db with users := updateUsers token_obj.user_id now db.users }
      if refreshed.is_active then
        (committed, Except.ok refreshed)
      else
        (committed, Except.error ⟨403, "Kontot är inte aktiverat. Vänligen aktivera ditt konto."⟩)

/-- security.py `get_current_admin` (lines 127-141): resolve the current user
(with all its side effects), then raise HTTP 403 unless `is_admin`. -/
def get_current_admin (token_str : String) (now maxAge : Int) (db : DB) :
    DB × Except HTTPException Users :=
  match get_current_user token_str now maxAge db with
  | (db1, Except.ok current_user) =>
    if current_user.is_admin then
      (db1, Except.ok current_user)
    else
      (db1, Except.error ⟨403, "Not authorized. admin privileges required."⟩)
  | (db1, Except.error e) => (db1, Except.error e)

/-- The response body of a successful login: `{access_token, token_type}`. -/
structure TokenSchema where
  access_token : String
  token_type : String
  deriving Repr, DecidableEq

/-- authentication.py `login` (lines 25-60): look the user up by email; raise
400 "User does not exist", 401 "Passwords do not match" or 403 for an inactive
account; otherwise persist a new Token row via `create_database_token` (with the
fresh random string `randomized_token` and the current instant) and return it
with token type "bearer".  `verify_password` is the external `pwd_context.verify`. -/
def login (verify_password : String → String → Bool)
    (username password randomized_token : String) (now : Int) (db : DB) :
    DB × Except HTTPException TokenSchema :=
  match db.users.find? (fun u => u.email == username) with
  | none => (db, Except.error ⟨400, "User does not exist"⟩)
  | some user =>
    if !(verify_password password user.hashed_password) then
      (db, Except.error ⟨401, "Passwords do not match"⟩)
    else if !user.is_active then
      (db, Except.error ⟨403, "Account not activated. Please check your email and activate your account."⟩)
    else
      ({ db with tokens := db.tokens ++ [⟨randomized_token, user.id, now⟩] },
       Except.ok ⟨randomized_token, "bearer"⟩)

/-- authentication.py `logout` (lines 63-70): resolve the presented token via
`get_current_token` (which is `verify_token_access`), then
`delete(Token).where(Token.token == current_token.token)` and commit. -/
def logout (token_str : String) (now maxAge : Int) (db : DB) :
    DB × Except HTTPException Unit :=
  match verify_token_access token_str now maxAge db with
  | Except.error e => (db, Except.error e)
  | Except.ok current_token =>
    ({ db with tokens := db.tokens.filter (fun r => !(r.token == current_token.token)) },
     Except.ok ())

/-! ### Instrumentation for the once-per-day invariant

`get_current_user` runs on every authenticated request; to state the
once-per-day guarantee we iterate it over a list of request instants and count,
for a fixed user id, the calls in which each credit branch fires. -/

/-- The database state after one `get_current_user` call (the result is dropped;
the committed state is kept whether the call succeeded or raised). -/
def resolveStep (token_str : String) (maxAge : Int) (db : DB) (now : Int) : DB :=
  (get_current_user token_str now maxAge db).1

/-- Whether, in a single `get_current_user` call at instant `now`, the
credit-refill branch fires for the user with id `uid`. -/
def refillFiredFor (uid : Nat) (token_str : String) (maxAge : Int) (db : DB) (now : Int) : Bool :=
  match verify_token_access token_str now maxAge db with
  | Except.ok tk =>
    tk.user_id == uid &&
      (match lookupUser tk.user_id db.users with
       | some u => refillGuard u now
       | none => false)
  | Except.error _ => false

/-- Whether, in a single `get_current_user` call at instant `now`, the
login-bonus branch fires for the user with id `uid` (the branch is evaluated on
the user as already transformed by the refill branch, as in the source). -/
def bonusFiredFor (uid : Nat) (token_str : String) (maxAge : Int) (db : DB) (now : Int) : Bool :=
  match verify_token_access token_str now maxAge db with
  | Except.ok tk =>
    tk.user_id == uid &&
      (match lookupUser tk.user_id db.users with
       | some u => bonusGuard (applyRefill u now) now
       | none => false)
  | Except.error _ => false

/-- Number of calls, over a sequential run of `get_current_user` at the given
instants, in which the refill branch fires for user `uid`. -/
def countRefillsFor (uid : Nat) (token_str : String) (maxAge : Int) :
    List Int → DB → Nat
  | [], _ => 0
  | t :: ts, db =>
    (if refillFiredFor uid token_str maxAge db t then 1 else 0) +
      countRefillsFor uid token_str maxAge ts (resolveStep token_str maxAge db t)

/-- Number of calls, over a sequential run of `get_current_user` at the given
instants, in which the login-bonus branch fires for user `uid`. -/
def countBonusesFor (uid : Nat) (token_str : String) (maxAge : Int) :
    List Int → DB → Nat
  | [], _ => 0
  | t :: ts, db =>
    (if bonusFiredFor uid token_str maxAge db t then 1 else 0) +
      countBonusesFor uid token_str maxAge ts (resolveStep token_str maxAge db t)

/-! ### Helper lemmas -/

@[simp] lemma applyRefill_id (u : Users) (now : Int) : (applyRefill u now).id = u.id := by
  unfold applyRefill; split <;> rfl

@[simp] lemma applyRefill_email (u : Users) (now : Int) :
    (applyRefill u now).email = u.email := by
  unfold applyRefill; split <;> rfl

@[simp] lemma applyRefill_hashed_password (u : Users) (now : Int) :
    (applyRefill u now).hashed_password = u.hashed_password := by
  unfold applyRefill; split <;> rfl

@[simp] lemma applyRefill_is_active (u : Users) (now : Int) :
    (applyRefill u now).is_active = u.is_active := by
  unfold applyRefill; split <;> rfl

@[simp] lemma applyRefill_is_admin (u : Users) (now : Int) :
    (applyRefill u now).is_admin = u.is_admin := by
  unfold applyRefill; split <;> rfl

@[simp] lemma applyRefill_llc (u : Users) (now : Int) :
    (applyRefill u now).last_login_credit = u.last_login_credit := by
  unfold applyRefill; split <;> rfl

@[simp] lemma applyBonus_id (u : Users) (now : Int) : (applyBonus u now).id = u.id := by
  unfold applyBonus; split <;> rfl

@[simp] lemma applyBonus_email (u : Users) (now : Int) :
    (applyBonus u now).email = u.email := by
  unfold applyBonus; split <;> rfl

@[simp] lemma applyBonus_hashed_password (u : Users) (now : Int) :
    (applyBonus u now).hashed_password = u.hashed_password := by
  unfold applyBonus; split <;> rfl

@[simp] lemma applyBonus_is_active (u : Users) (now : Int) :
    (applyBonus u now).is_active = u.is_active := by
  unfold applyBonus; split <;> rfl

@[simp] lemma applyBonus_is_admin (u : Users) (now : Int) :
    (applyBonus u now).is_admin = u.is_admin := by
  unfold applyBonus; split <;> rfl

@[simp] lemma applyBonus_lcr (u : Users) (now : Int) :
    (applyBonus u now).last_credit_refill = u.last_credit_refill := by
  unfold applyBonus; split <;> rfl

@[simp] lemma applyCredits_id (u : Users) (now : Int) : (applyCredits u now).id = u.id := by
  unfold applyCredits; simp

@[simp] lemma applyCredits_email (u : Users) (now : Int) :
    (applyCredits u now).email = u.email := by
  unfold applyCredits; simp

@[simp] lemma applyCredits_hashed_password (u : Users) (now : Int) :
    (applyCredits u now).hashed_password = u.hashed_password := by
  unfold applyCredits; simp

@[simp] lemma applyCredits_is_active (u : Users) (now : Int) :
    (applyCredits u now).is_active = u.is_active := by
  unfold applyCredits; simp

@[simp] lemma applyCredits_is_admin (u : Users) (now : Int) :
    (applyCredits u now).is_admin = u.is_admin := by
  unfold applyCredits; simp

lemma applyBonus_llc (u : Users) (now : Int) :
    (applyBonus u now).last_login_credit =
      if bonusGuard u now then some now else u.last_login_credit := by
  unfold applyBonus; split <;> rfl

lemma applyBonus_credits (u : Users) (now : Int) :
    (applyBonus u now).credits =
      if bonusGuard u now then u.credits + 1 else u.credits := by
  unfold applyBonus; split <;> rfl

lemma applyRefill_lcr (u : Users) (now : Int) :
    (applyRefill u now).last_credit_refill =
      if refillGuard u now then some now else u.last_credit_refill := by
  unfold applyRefill; split <;> rfl

lemma applyRefill_credits (u : Users) (now : Int) :
    (applyRefill u now).credits =
      if refillGuard u now then u.credits + 10 else u.credits := by
  unfold applyRefill; split <;> rfl

lemma bonusGuard_applyRefill (u : Users) (now t : Int) :
    bonusGuard (applyRefill u now) t = bonusGuard u t := by
  unfold bonusGuard; rw [applyRefill_llc]

lemma applyCredits_lcr (u : Users) (now : Int) :
    (applyCredits u now).last_credit_refill =
      if refillGuard u now then some now else u.last_credit_refill := by
  unfold applyCredits; rw [applyBonus_lcr, applyRefill_lcr]

lemma applyCredits_llc (u : Users) (now : Int) :
    (applyCredits u now).last_login_credit =
      if bonusGuard u now then some now else u.last_login_credit := by
  unfold applyCredits; rw [applyBonus_llc, bonusGuard_applyRefill, applyRefill_llc]

lemma lookupUser_some_id {uid : Nat} {us : List Users} {u : Users}
    (h : lookupUser uid us = some u) : u.id = uid := by
  have := List.find?_some h
  simpa using this

lemma lookupUser_updateUsers (uid uid' : Nat) (now : Int) (us : List Users) :
    lookupUser uid' (updateUsers uid now us) =
      (lookupUser uid' us).map (fun v => if v.id == uid then applyCredits v now else v) := by
  unfold lookupUser updateUsers
  rw [List.find?_map _ _]
  have hp : ((fun v : Users => v.id == uid') ∘
      fun v : Users => if v.id == uid then applyCredits v now else v) =
      fun v : Users => v.id == uid' := by
    funext v
    by_cases hv : v.id == uid <;> simp [Function.comp, hv]
  rw [hp]

lemma get_current_user_eq {token_str : String} {now maxAge : Int} {db : DB}
    {t : Token} {u : Users}
    (ht : verify_token_access token_str now maxAge db = Except.ok t)
    (hu : lookupUser t.user_id db.users = some u) :
    get_current_user token_str now maxAge db =
      ({ db with users := updateUsers t.user_id now db.users },
       if u.is_active then Except.ok (applyCredits u now)
       else Except.error ⟨403, "Kontot är inte aktiverat. Vänligen aktivera ditt konto."⟩) := by
  unfold get_current_user
  rw [ht]
  dsimp only
  rw [hu]
  dsimp only
  rw [applyCredits_is_active]
  by_cases ha : u.is_active <;> simp [ha]

lemma get_current_user_no_token {token_str : String} {now maxAge : Int} {db : DB}
    {e : HTTPException}
    (ht : verify_token_access token_str now maxAge db = Except.error e) :
    get_current_user token_str now maxAge db = (db, Except.error e) := by
  unfold get_current_user
  rw [ht]

lemma get_current_user_no_user {token_str : String} {now maxAge : Int} {db : DB}
    {t : Token}
    (ht : verify_token_access token_str now maxAge db = Except.ok t)
    (hu : lookupUser t.user_id db.users = none) :
    get_current_user token_str now maxAge db =
      (db, Except.error ⟨500, "Internal Server Error"⟩) := by
  unfold get_current_user
  rw [ht]
  dsimp only
  rw [hu]

lemma resolveStep_tokens (token_str : String) (maxAge : Int) (db : DB) (now : Int) :
    (resolveStep token_str maxAge db now).tokens = db.tokens := by
  unfold resolveStep
  cases hv : verify_token_access token_str now maxAge db with
  | error e => rw [get_current_user_no_token hv]
  | ok t =>
    cases hu : lookupUser t.user_id db.users with
    | none => rw [get_current_user_no_user hv hu]
    | some u => rw [get_current_user_eq hv hu]

lemma resolveStep_users (token_str : String) (maxAge : Int) (db : DB) (now : Int) :
    (resolveStep token_str maxAge db now).users = db.users ∨
    ∃ tk u, verify_token_access token_str now maxAge db = Except.ok tk ∧
      lookupUser tk.user_id db.users = some u ∧
      (resolveStep token_str maxAge db now).users = updateUsers tk.user_id now db.users := by
  unfold resolveStep
  cases hv : verify_token_access token_str now maxAge db with
  | error e => left; rw [get_current_user_no_token hv]
  | ok t =>
    cases hu : lookupUser t.user_id db.users with
    | none => left; rw [get_current_user_no_user hv hu]
    | some u =>
      right
      exact ⟨t, u, rfl, hu, by rw [get_current_user_eq hv hu]⟩

/-- After the refill branch has fired on day `d`, the user row carries a
refill timestamp of day `d`. -/
def RefillDone (uid : Nat) (d : Int) (db : DB) : Prop :=
  ∀ u, lookupUser uid db.users = some u →
    ∃ x, u.last_credit_refill = some x ∧ dateOf x = d

/-- After the login-bonus branch has fired on day `d`, the user row carries a
login-credit timestamp of day `d`. -/
def BonusDone (uid : Nat) (d : Int) (db : DB) : Prop :=
  ∀ u, lookupUser uid db.users = some u →
    ∃ x, u.last_login_credit = some x ∧ dateOf x = d

lemma refillDone_blocks {uid : Nat} {d : Int} {db : DB} {s : String} {maxAge t : Int}
    (h : RefillDone uid d db) (hd : dateOf t = d) :
    refillFiredFor uid s maxAge db t = false := by
  unfold refillFiredFor
  cases hv : verify_token_access s t maxAge db with
  | error e => rfl
  | ok tk =>
    dsimp only
    by_cases hid : tk.user_id == uid
    · have hid' : tk.user_id = uid := by simpa using hid
      cases hu : lookupUser tk.user_id db.users with
      | none => simp
      | some u =>
        obtain ⟨x, hx, hxd⟩ := h u (hid' ▸ hu)
        simp [refillGuard, hx, hxd, hd]
    · simp [hid]

lemma bonusDone_blocks {uid : Nat} {d : Int} {db : DB} {s : String} {maxAge t : Int}
    (h : BonusDone uid d db) (hd : dateOf t = d) :
    bonusFiredFor uid s maxAge db t = false := by
  unfold bonusFiredFor
  cases hv : verify_token_access s t maxAge db with
  | error e => rfl
  | ok tk =>
    dsimp only
    by_cases hid : tk.user_id == uid
    · have hid' : tk.user_id = uid := by simpa using hid
      cases hu : lookupUser tk.user_id db.users with
      | none => simp
      | some u =>
        obtain ⟨x, hx, hxd⟩ := h u (hid' ▸ hu)
        simp [bonusGuard_applyRefill, bonusGuard, hx, hxd, hd]
    · simp [hid]

lemma refillDone_preserved {uid : Nat} {d : Int} {db : DB} {s : String} {maxAge t : Int}
    (h : RefillDone uid d db) (hd : dateOf t = d) :
    RefillDone uid d (resolveStep s maxAge db t) := by
  intro u hu
  rcases resolveStep_users s maxAge db t with heq | ⟨tk, w, hv, hw, heq⟩
  · exact h u (heq ▸ hu)
  · rw [heq, lookupUser_updateUsers] at hu
    cases hl : lookupUser uid db.users with
    | none => rw [hl] at hu; simp at hu
    | some v =>
      rw [hl] at hu
      simp only [Option.map_some'] at hu
      obtain ⟨x, hx, hxd⟩ := h v hl
      by_cases hvid : v.id == tk.user_id
      · rw [if_pos hvid] at hu
        obtain rfl : applyCredits v t = u := Option.some.inj hu
        rw [applyCredits_lcr]
        by_cases hg : refillGuard v t
        · exact ⟨t, by rw [if_pos hg], hd⟩
        · exact ⟨x, by rw [if_neg hg]; exact hx, hxd⟩
      · rw [if_neg hvid] at hu
        obtain rfl : v = u := Option.some.inj hu
        exact ⟨x, hx, hxd⟩

lemma bonusDone_preserved {uid : Nat} {d : Int} {db : DB} {s : String} {maxAge t : Int}
    (h : BonusDone uid d db) (hd : dateOf t = d) :
    BonusDone uid d (resolveStep s maxAge db t) := by
  intro u hu
  rcases resolveStep_users s maxAge db t with heq | ⟨tk, w, hv, hw, heq⟩
  · exact h u (heq ▸ hu)
  · rw [heq, lookupUser_updateUsers] at hu
    cases hl : lookupUser uid db.users with
    | none => rw [hl] at hu; simp at hu
    | some v =>
      rw [hl] at hu
      simp only [Option.map_some'] at hu
      obtain ⟨x, hx, hxd⟩ := h v hl
      by_cases hvid : v.id == tk.user_id
      · rw [if_pos hvid] at hu
        obtain rfl : applyCredits v t = u := Option.some.inj hu
        rw [applyCredits_llc]
        by_cases hg : bonusGuard v t
        · exact ⟨t, by rw [if_pos hg], hd⟩
        · exact ⟨x, by rw [if_neg hg]; exact hx, hxd⟩
      · rw [if_neg hvid] at hu
        obtain rfl : v = u := Option.some.inj hu
        exact ⟨x, hx, hxd⟩

lemma refillFired_establishes {uid : Nat} {d : Int} {db : DB} {s : String} {maxAge t : Int}
    (hf : refillFiredFor uid s maxAge db t = true) (hd : dateOf t = d) :
    RefillDone uid d (resolveStep s maxAge db t) := by
  unfold refillFiredFor at hf
  cases hv : verify_token_access s t maxAge db with
  | error e => rw [hv] at hf; simp at hf
  | ok tk =>
    rw [hv] at hf
    dsimp only at hf
    cases hu : lookupUser tk.user_id db.users with
    | none => rw [hu] at hf; simp at hf
    | some u =>
      rw [hu] at hf
      simp only [Bool.and_eq_true] at hf
      obtain ⟨hid, hg⟩ := hf
      have hid' : tk.user_id = uid := by simpa using hid
      intro w hw
      have hstep : (resolveStep s maxAge db t).users = updateUsers tk.user_id t db.users := by
        unfold resolveStep
        rw [get_current_user_eq hv hu]
      rw [hstep, lookupUser_updateUsers, hid'] at hw
      rw [hid'] at hu
      rw [hu, Option.map_some'] at hw
      have huid : u.id = uid := lookupUser_some_id hu
      rw [if_pos (by simpa using huid)] at hw
      obtain rfl : applyCredits u t = w := Option.some.inj hw
      rw [applyCredits_lcr, if_pos hg]
      exact ⟨t, rfl, hd⟩

lemma bonusFired_establishes {uid : Nat} {d : Int} {db : DB} {s : String} {maxAge t : Int}
    (hf : bonusFiredFor uid s maxAge db t = true) (hd : dateOf t = d) :
    BonusDone uid d (resolveStep s maxAge db t) := by
  unfold bonusFiredFor at hf
  cases hv : verify_token_access s t maxAge db with
  | error e => rw [hv] at hf; simp at hf
  | ok tk =>
    rw [hv] at hf
    dsimp only at hf
    cases hu : lookupUser tk.user_id db.users with
    | none => rw [hu] at hf; simp at hf
    | some u =>
      rw [hu] at hf
      simp only [Bool.and_eq_true] at hf
      obtain ⟨hid, hg⟩ := hf
      have hid' : tk.user_id = uid := by simpa using hid
      intro w hw
      have hstep : (resolveStep s maxAge db t).users = updateUsers tk.user_id t db.users := by
        unfold resolveStep
        rw [get_current_user_eq hv hu]
      rw [hstep, lookupUser_updateUsers, hid'] at hw
      rw [hid'] at hu
      rw [hu, Option.map_some'] at hw
      have huid : u.id = uid := lookupUser_some_id hu
      rw [if_pos (by simpa using huid)] at hw
      obtain rfl : applyCredits u t = w := Option.some.inj hw
      rw [applyCredits_llc, if_pos (by rw [← bonusGuard_applyRefill u t t]; exact hg)]
      exact ⟨t, rfl, hd⟩

lemma countRefillsFor_of_done {uid : Nat} {d : Int} {s : String} {maxAge : Int}
    {ts : List Int} {db : DB}
    (h : RefillDone uid d db) (hts : ∀ x ∈ ts, dateOf x = d) :
    countRefillsFor uid s maxAge ts db = 0 := by
  induction ts generalizing db with
  | nil => rfl
  | cons t ts ih =>
    unfold countRefillsFor
    rw [refillDone_blocks h (hts t (List.mem_cons_self t ts))]
    simp only [Bool.false_eq_true, if_false, Nat.zero_add]
    exact ih (refillDone_preserved h (hts t (List.mem_cons_self t ts)))
      (fun x hx => hts x (List.mem_cons_of_mem _ hx))

lemma countBonusesFor_of_done {uid : Nat} {d : Int} {s : String} {maxAge : Int}
    {ts : List Int} {db : DB}
    (h : BonusDone uid d db) (hts : ∀ x ∈ ts, dateOf x = d) :
    countBonusesFor uid s maxAge ts db = 0 := by
  induction ts generalizing db with
  | nil => rfl
  | cons t ts ih =>
    unfold countBonusesFor
    rw [bonusDone_blocks h (hts t (List.mem_cons_self t ts))]
    simp only [Bool.false_eq_true, if_false, Nat.zero_add]
    exact ih (bonusDone_preserved h (hts t (List.mem_cons_self t ts)))
      (fun x hx => hts x (List.mem_cons_of_mem _ hx))

lemma countRefillsFor_le_one {uid : Nat} {d : Int} {s : String} {maxAge : Int}
    {ts : List Int} {db : DB} (hts : ∀ x ∈ ts, dateOf x = d) :
    countRefillsFor uid s maxAge ts db ≤ 1 := by
  induction ts generalizing db with
  | nil => exact Nat.zero_le 1
  | cons t ts ih =>
    unfold countRefillsFor
    by_cases hf : refillFiredFor uid s maxAge db t
    · rw [if_pos hf,
        countRefillsFor_of_done (refillFired_establishes hf (hts t (List.mem_cons_self t ts)))
          (fun x hx => hts x (List.mem_cons_of_mem _ hx))]
    · rw [if_neg hf, Nat.zero_add]
      exact ih (fun x hx => hts x (List.mem_cons_of_mem _ hx))

lemma countBonusesFor_le_one {uid : Nat} {d : Int} {s : String} {maxAge : Int}
    {ts : List Int} {db : DB} (hts : ∀ x ∈ ts, dateOf x = d) :
    countBonusesFor uid s maxAge ts db ≤ 1 := by
  induction ts generalizing db with
  | nil => exact Nat.zero_le 1
  | cons t ts ih =>
    unfold countBonusesFor
    by_cases hf : bonusFiredFor uid s maxAge db t
    · rw [if_pos hf,
        countBonusesFor_of_done (bonusFired_establishes hf (hts t (List.mem_cons_self t ts)))
          (fun x hx => hts x (List.mem_cons_of_mem _ hx))]
    · rw [if_neg hf, Nat.zero_add]
      exact ih (fun x hx => hts x (List.mem_cons_of_mem _ hx))

lemma refillGuard_iff (u : Users) (now : Int) :
    refillGuard u now = true ↔
      (u.credits = 0 ∧ ∃ x, u.last_credit_refill = some x ∧ dateOf x < dateOf now) := by
  unfold refillGuard
  cases hl : u.last_credit_refill with
  | none => simp
  | some x => simp

lemma bonusGuard_iff (u : Users) (now : Int) :
    bonusGuard u now = true ↔
      (u.last_login_credit = none ∨
        ∃ x, u.last_login_credit = some x ∧ dateOf x ≠ dateOf now) := by
  unfold bonusGuard
  cases hl : u.last_login_credit with
  | none => simp
  | some x => simp

lemma find?_filter_of_imp {α : Type} {p keep : α → Bool} {l : List α}
    (h : ∀ x, p x = true → keep x = true) :
    (l.filter keep).find? p = l.find? p := by
  induction l with
  | nil => rfl
  | cons a l ih =>
    by_cases hk : keep a
    · rw [List.filter_cons_of_pos hk]
      by_cases hp : p a
      · rw [List.find?_cons_of_pos _ hp, List.find?_cons_of_pos _ hp]
      · rw [List.find?_cons_of_neg _ (by simpa using hp),
          List.find?_cons_of_neg _ (by simpa using hp), ih]
    · have hp : p a = false := by
        cases hpa : p a
        · rfl
        · exact absurd (h a hpa) (by simpa using hk)
      rw [List.filter_cons_of_neg (by simpa using hk),
        List.find?_cons_of_neg _ (by simp [hp]), ih]

lemma forall₂_of_map {α : Type} {R : α → α → Prop} {f : α → α} {l : List α}
    (h : ∀ x ∈ l, R x (f x)) : List.Forall₂ R l (l.map f) := by
  induction l with
  | nil => exact List.Forall₂.nil
  | cons a l ih =>
    exact List.Forall₂.cons (h a (List.mem_cons_self a l))
      (ih (fun x hx => h x (List.mem_cons_of_mem _ hx)))

/-! ### Concrete fixtures used by the witnesses -/

/-- An active, non-admin user at zero credits whose last refill was on day 0
and who has never received a login bonus. -/
def sampleUser : Users :=
  ⟨1, "anna@example.se", "hashedpw", true, false, 0, some 0, none⟩

/-- A token for `sampleUser` issued at instant 1970 (day 1). -/
def sampleToken : Token := ⟨"tok123", 1, 1970⟩

def sampleDB : DB := ⟨[sampleUser], [sampleToken]⟩

/-- An inactive user eligible for both credit grants. -/
def inactiveUser : Users :=
  ⟨2, "bo@example.se", "hashedpw2", false, false, 0, some 0, none⟩

def inactiveToken : Token := ⟨"tok456", 2, 1970⟩

def inactiveDB : DB := ⟨[inactiveUser], [inactiveToken]⟩

/-- A database holding two distinct tokens of the same user. -/
def twoTokenDB : DB := ⟨[sampleUser], [sampleToken, ⟨"tokB", 1, 1980⟩]⟩

/-- A stand-in for the external `pwd_context.verify`: accepts exactly the
password "pw" against the digest "hashedpw". -/
def sampleVerify : String → String → Bool :=
  fun p h => p == "pw" && h == "hashedpw"

/-! ### Claims -/

/-- C4: `verify_token_access` returns a session if and only if some stored
token row matches the presented string exactly and satisfies
`created_at >= now - max_age` (inclusive lower bound, so a token exactly at
the boundary is accepted); otherwise it fails with the single 401 message
"Token invalid or expired", identical for never-issued and expired tokens. -/
theorem verify_token_access_characterization (s : String) (now maxAge : Int) (db : DB) :
    ((∃ r ∈ db.tokens, r.token = s ∧ now - maxAge ≤ r.created_at) ↔
       ∃ t, verify_token_access s now maxAge db = Except.ok t) ∧
    (∀ t, verify_token_access s now maxAge db = Except.ok t →
       t ∈ db.tokens ∧ t.token = s ∧ now - maxAge ≤ t.created_at) ∧
    ((¬ ∃ r ∈ db.tokens, r.token = s ∧ now - maxAge ≤ r.created_at) →
       verify_token_access s now maxAge db =
         Except.error ⟨401, "Token invalid or expired"⟩) := by
  unfold verify_token_access
  cases hf : db.tokens.find? (fun r => r.token == s && decide (now - maxAge ≤ r.created_at)) with
  | some t =>
    have hp := List.find?_some hf
    simp only [Bool.and_eq_true, beq_iff_eq, decide_eq_true_eq] at hp
    have hm := List.mem_of_find?_eq_some hf
    refine ⟨⟨fun _ => ⟨t, rfl⟩, fun _ => ⟨t, hm, hp.1, hp.2⟩⟩, ?_, ?_⟩
    · intro t' ht'
      obtain rfl : t = t' := Except.ok.inj ht'
      exact ⟨hm, hp.1, hp.2⟩
    · intro hno
      exact absurd ⟨t, hm, hp.1, hp.2⟩ hno
  | none =>
    have hnone := List.find?_eq_none.mp hf
    refine ⟨⟨?_, ?_⟩, ?_, fun _ => rfl⟩
    · rintro ⟨r, hr, hrt, hrc⟩
      have hpr : (r.token == s && decide (now - maxAge ≤ r.created_at)) = true := by
        simp [hrt, hrc]
      exact absurd hpr (hnone r hr)
    · rintro ⟨t, ht⟩
      cases ht
    · intro t ht
      cases ht

/-- Witness for C4 at the exact expiry boundary: the fixture token was created
at instant 1970 and is still accepted at `now = 2000` with `maxAge = 30`. -/
theorem verify_token_access_characterization_witness :
    sampleToken ∈ sampleDB.tokens ∧ sampleToken.token = "tok123" ∧
      (2000 : Int) - 30 ≤ sampleToken.created_at :=
  (verify_token_access_characterization "tok123" 2000 30 sampleDB).2.1 sampleToken rfl

/-- C1: over any sequence of sequential `get_current_user` calls whose instants
all fall on one calendar day, the credit-refill branch fires at most once and
the login-bonus branch fires at most once for any fixed user, regardless of
how many times resolution is invoked. -/
theorem daily_credit_grants_at_most_once (uid : Nat) (token_str : String)
    (maxAge d : Int) (times : List Int) (db : DB)
    (hday : ∀ x ∈ times, dateOf x = d) :
    countRefillsFor uid token_str maxAge times db ≤ 1 ∧
      countBonusesFor uid token_str maxAge times db ≤ 1 :=
  ⟨countRefillsFor_le_one hday, countBonusesFor_le_one hday⟩

/-- Witness for C1: three resolutions on day 1 for the fixture user. -/
theorem daily_credit_grants_at_most_once_witness :
    countRefillsFor 1 "tok123" 1000 [2000, 2100, 2200] sampleDB ≤ 1 ∧
      countBonusesFor 1 "tok123" 1000 [2000, 2100, 2200] sampleDB ≤ 1 :=
  daily_credit_grants_at_most_once 1 "tok123" 1000 1 [2000, 2100, 2200] sampleDB
    (by decide)

/-- C2: within identity resolution, the credit refill fires exactly when
`credits == 0`, `last_credit_refill` is non-null and its date is before
today; it then adds 10 credits and stamps `last_credit_refill = now`; a null
`last_credit_refill` (even at zero credits) never auto-refills; and the
committed Users relation is exactly the one obtained from these branch
functions. -/
theorem credit_refill_rule_exact (token_str : String) (now maxAge : Int) (db : DB)
    (t : Token) (u : Users)
    (ht : verify_token_access token_str now maxAge db = Except.ok t)
    (hu : lookupUser t.user_id db.users = some u) :
    ((u.credits = 0 ∧ ∃ x, u.last_credit_refill = some x ∧ dateOf x < dateOf now) →
       (applyRefill u now).credits = u.credits + 10 ∧
         (applyRefill u now).last_credit_refill = some now) ∧
    ((¬ (u.credits = 0 ∧ ∃ x, u.last_credit_refill = some x ∧ dateOf x < dateOf now)) →
       applyRefill u now = u) ∧
    (u.last_credit_refill = none → applyRefill u now = u) ∧
    (get_current_user token_str now maxAge db).1.users =
      updateUsers t.user_id now db.users ∧
    lookupUser t.user_id (get_current_user token_str now maxAge db).1.users =
      some (applyCredits u now) := by
  refine ⟨?_, ?_, ?_, ?_, ?_⟩
  · intro hcond
    have hg : refillGuard u now = true := (refillGuard_iff u now).mpr hcond
    rw [applyRefill_credits, applyRefill_lcr, if_pos hg, if_pos hg]
    exact ⟨rfl, rfl⟩
  · intro hcond
    have hg : refillGuard u now = false := by
      cases hgc : refillGuard u now
      · rfl
      · exact absurd ((refillGuard_iff u now).mp hgc) hcond
    unfold applyRefill
    rw [hg]
    rfl
  · intro hnull
    unfold applyRefill refillGuard
    rw [hnull]
    simp
  · rw [get_current_user_eq ht hu]
  · rw [get_current_user_eq ht hu]
    dsimp only
    rw [lookupUser_updateUsers, hu, Option.map_some',
      if_pos (by simpa using lookupUser_some_id hu)]

/-- Witness for C2: the fixture user (zero credits, refill stamped day 0,
resolved on day 1) is refilled to 10 credits with the stamp moved to now. -/
theorem credit_refill_rule_exact_witness :
    (applyRefill sampleUser 2000).credits = sampleUser.credits + 10 ∧
      (applyRefill sampleUser 2000).last_credit_refill = some 2000 :=
  (credit_refill_rule_exact "tok123" 2000 30 sampleDB sampleToken sampleUser rfl rfl).1
    ⟨rfl, 0, rfl, by decide⟩

/-- C3: within identity resolution, the login bonus fires exactly when
`last_login_credit` is unset or dated on a different calendar day than today,
adding 1 credit and stamping `last_login_credit = now`; it is evaluated after
and independently of the refill branch (whose output it does not consult
beyond the unchanged `last_login_credit` field); in particular a user entering
with `credits = 0`, `last_credit_refill` = yesterday and
`last_login_credit` = null leaves a single resolution with 11 credits and both
stamps set to now. -/
theorem login_bonus_rule_exact (token_str : String) (now maxAge : Int) (db : DB)
    (t : Token) (u : Users)
    (ht : verify_token_access token_str now maxAge db = Except.ok t)
    (hu : lookupUser t.user_id db.users = some u) :
    (bonusGuard u now = true ↔
       (u.last_login_credit = none ∨
         ∃ x, u.last_login_credit = some x ∧ dateOf x ≠ dateOf now)) ∧
    (bonusGuard (applyRefill u now) now = bonusGuard u now) ∧
    (bonusGuard u now = true →
       (applyCredits u now).credits = (applyRefill u now).credits + 1 ∧
         (applyCredits u now).last_login_credit = some now) ∧
    (bonusGuard u now = false → applyCredits u now = applyRefill u now) ∧
    ((u.credits = 0 ∧ (∃ y, u.last_credit_refill = some y ∧ dateOf y < dateOf now) ∧
        u.last_login_credit = none) →
       (applyCredits u now).credits = 11 ∧
         (applyCredits u now).last_credit_refill = some now ∧
         (applyCredits u now).last_login_credit = some now ∧
         (u.is_active = true →
           (get_current_user token_str now maxAge db).2 =
             Except.ok (applyCredits u now))) := by
  refine ⟨bonusGuard_iff u now, bonusGuard_applyRefill u now now, ?_, ?_, ?_⟩
  · intro hg
    have hg' : bonusGuard (applyRefill u now) now = true := by
      rw [bonusGuard_applyRefill]; exact hg
    unfold applyCredits
    rw [applyBonus_credits, applyBonus_llc, if_pos hg', if_pos hg']
    exact ⟨rfl, rfl⟩
  · intro hg
    have hg' : bonusGuard (applyRefill u now) now = false := by
      rw [bonusGuard_applyRefill]; exact hg
    unfold applyCredits applyBonus
    rw [hg']
    rfl
  · rintro ⟨hc, ⟨y, hy, hylt⟩, hn⟩
    have hrg : refillGuard u now = true := (refillGuard_iff u now).mpr ⟨hc, y, hy, hylt⟩
    have hbg : bonusGuard (applyRefill u now) now = true := by
      rw [bonusGuard_applyRefill, bonusGuard_iff]
      exact Or.inl hn
    refine ⟨?_, ?_, ?_, ?_⟩
    · unfold applyCredits
      rw [applyBonus_credits, if_pos hbg, applyRefill_credits, if_pos hrg, hc]
      norm_num
    · rw [applyCredits_lcr, if_pos hrg]
    · unfold applyCredits
      rw [applyBonus_llc, if_pos hbg]
    · intro hact
      rw [get_current_user_eq ht hu, hact]
      rfl

/-- Witness for C3: the fixture user leaves one resolution with 11 credits and
both timestamps set to now. -/
theorem login_bonus_rule_exact_witness :
    (applyCredits sampleUser 2000).credits = 11 ∧
      (applyCredits sampleUser 2000).last_credit_refill = some 2000 ∧
      (applyCredits sampleUser 2000).last_login_credit = some 2000 ∧
      (sampleUser.is_active = true →
        (get_current_user "tok123" 2000 30 sampleDB).2 =
          Except.ok (applyCredits sampleUser 2000)) :=
  (login_bonus_rule_exact "tok123" 2000 30 sampleDB sampleToken sampleUser rfl rfl).2.2.2.2
    ⟨rfl, ⟨0, rfl, by decide⟩, rfl⟩

/-- C5: a valid token whose owner is inactive makes `get_current_user` fail
with the 403 Forbidden message, but only after the credit mutations were
committed: the returned state already carries the mutated user row. -/
theorem inactive_user_forbidden_after_commit (token_str : String) (now maxAge : Int)
    (db : DB) (t : Token) (u : Users)
    (ht : verify_token_access token_str now maxAge db = Except.ok t)
    (hu : lookupUser t.user_id db.users = some u)
    (hinactive : u.is_active = false) :
    get_current_user token_str now maxAge db =
      ({ db with users := updateUsers t.user_id now db.users },
       Except.error ⟨403, "Kontot är inte aktiverat. Vänligen aktivera ditt konto."⟩) ∧
    lookupUser t.user_id (get_current_user token_str now maxAge db).1.users =
      some (applyCredits u now) := by
  have he := get_current_user_eq ht hu
  constructor
  · rw [he, hinactive]
    rfl
  · rw [he]
    dsimp only
    rw [lookupUser_updateUsers, hu, Option.map_some',
      if_pos (by simpa using lookupUser_some_id hu)]

/-- Witness for C5: the inactive fixture user is mutated (0 to 11 credits,
both stamps set) even though the call raises 403. -/
theorem inactive_user_forbidden_after_commit_witness :
    get_current_user "tok456" 2000 30 inactiveDB =
      ({ inactiveDB with users := updateUsers 2 2000 inactiveDB.users },
       Except.error ⟨403, "Kontot är inte aktiverat. Vänligen aktivera ditt konto."⟩) ∧
    lookupUser 2 (get_current_user "tok456" 2000 30 inactiveDB).1.users =
      some (applyCredits inactiveUser 2000) :=
  inactive_user_forbidden_after_commit "tok456" 2000 30 inactiveDB inactiveToken
    inactiveUser rfl rfl rfl

/-- C7: login with an unknown email fails 400 "User does not exist"; a known
email with a failing password verification fails 401; a known email with a
passing verification but inactive account fails 403; in every failure case the
database (in particular the Token relation) is unchanged, and only on success
is a token row persisted and returned with token type "bearer". -/
theorem login_characterization (vp : String → String → Bool)
    (username password rtok : String) (now : Int) (db : DB) :
    (db.users.find? (fun u => u.email == username) = none →
       login vp username password rtok now db =
         (db, Except.error ⟨400, "User does not exist"⟩)) ∧
    (∀ u, db.users.find? (fun v => v.email == username) = some u →
       vp password u.hashed_password = false →
       login vp username password rtok now db =
         (db, Except.error ⟨401, "Passwords do not match"⟩)) ∧
    (∀ u, db.users.find? (fun v => v.email == username) = some u →
       vp password u.hashed_password = true → u.is_active = false →
       login vp username password rtok now db =
         (db, Except.error
           ⟨403, "Account not activated. Please check your email and activate your account."⟩)) ∧
    (∀ u, db.users.find? (fun v => v.email == username) = some u →
       vp password u.hashed_password = true → u.is_active = true →
       login vp username password rtok now db =
         ({ db with tokens := db.tokens ++ [⟨rtok, u.id, now⟩] },
          Except.ok ⟨rtok, "bearer"⟩)) := by
  refine ⟨?_, ?_, ?_, ?_⟩
  · intro hn
    unfold login
    rw [hn]
  · intro u hfind hpw
    unfold login
    rw [hfind]
    dsimp only
    rw [hpw]
    rfl
  · intro u hfind hpw hact
    unfold login
    rw [hfind]
    dsimp only
    rw [hpw, hact]
    rfl
  · intro u hfind hpw hact
    unfold login
    rw [hfind]
    dsimp only
    rw [hpw, hact]
    rfl

/-- Witness for C7: wrong password yields 401 with no token created; the
correct password yields the new token row and the "bearer" body. -/
theorem login_characterization_witness :
    login sampleVerify "anna@example.se" "wrong" "newtok" 2100 sampleDB =
      (sampleDB, Except.error ⟨401, "Passwords do not match"⟩) ∧
    login sampleVerify "anna@example.se" "pw" "newtok" 2100 sampleDB =
      ({ sampleDB with tokens := sampleDB.tokens ++ [⟨"newtok", 1, 2100⟩] },
       Except.ok ⟨"newtok", "bearer"⟩) :=
  ⟨(login_characterization sampleVerify "anna@example.se" "wrong" "newtok" 2100
      sampleDB).2.1 sampleUser rfl rfl,
   (login_characterization sampleVerify "anna@example.se" "pw" "newtok" 2100
      sampleDB).2.2.2 sampleUser rfl rfl rfl⟩

/-- C8: logout with a currently valid token deletes exactly the token rows
whose string equals the presented token; afterwards verification of that exact
string fails 401 at every instant, while verification of any other token
string behaves exactly as before the logout. -/
theorem logout_deletes_exactly_presented_token (token_str : String)
    (now maxAge : Int) (db : DB) (t : Token)
    (ht : verify_token_access token_str now maxAge db = Except.ok t) :
    logout token_str now maxAge db =
      ({ db with tokens := db.tokens.filter (fun r => !(r.token == t.token)) },
       Except.ok ()) ∧
    (∀ nowLater,
       verify_token_access t.token nowLater maxAge (logout token_str now maxAge db).1 =
         Except.error ⟨401, "Token invalid or expired"⟩) ∧
    (∀ s', s' ≠ t.token → ∀ nowLater,
       verify_token_access s' nowLater maxAge (logout token_str now maxAge db).1 =
         verify_token_access s' nowLater maxAge db) := by
  have hlog : logout token_str now maxAge db =
      ({ db with tokens := db.tokens.filter (fun r => !(r.token == t.token)) },
       Except.ok ()) := by
    unfold logout
    rw [ht]
  refine ⟨hlog, ?_, ?_⟩
  · intro nowLater
    rw [hlog]
    unfold verify_token_access
    have hnone : (db.tokens.filter (fun r => !(r.token == t.token))).find?
        (fun r => r.token == t.token && decide (nowLater - maxAge ≤ r.created_at)) = none := by
      rw [List.find?_eq_none]
      intro r hr
      have hkeep := (List.mem_filter.mp hr).2
      simp only [Bool.not_eq_true', beq_eq_false_iff_ne, ne_eq] at hkeep
      simp [hkeep]
    rw [hnone]
  · intro s' hs' nowLater
    rw [hlog]
    unfold verify_token_access
    rw [find?_filter_of_imp]
    intro x hx
    simp only [Bool.and_eq_true, beq_iff_eq] at hx
    simp [hx.1, hs']

/-- Witness for C8: after logging out "tok123", that string no longer
verifies, while the user's second token "tokB" verifies exactly as before. -/
theorem logout_deletes_exactly_presented_token_witness :
    verify_token_access "tok123" 2000 30
        (logout "tok123" 2000 30 twoTokenDB).1 =
      Except.error ⟨401, "Token invalid or expired"⟩ ∧
    verify_token_access "tokB" 2000 30 (logout "tok123" 2000 30 twoTokenDB).1 =
      verify_token_access "tokB" 2000 30 twoTokenDB :=
  ⟨(logout_deletes_exactly_presented_token "tok123" 2000 30 twoTokenDB
      sampleToken rfl).2.1 2000,
   (logout_deletes_exactly_presented_token "tok123" 2000 30 twoTokenDB
      sampleToken rfl).2.2 "tokB" (by decide) 2000⟩

/-- C9: whether it succeeds or fails, `get_current_user` leaves the Token
relation untouched and changes the Users relation at most row-for-row: every
row either stays identical or — only when it is owned by the verified token —
keeps its id, email, hashed password, activity and admin flags and becomes the
credit-branch image of the old row (so only `credits`, `last_credit_refill`
and `last_login_credit` can change). -/
theorem resolve_frame_effect (token_str : String) (now maxAge : Int) (db : DB) :
    (get_current_user token_str now maxAge db).1.tokens = db.tokens ∧
    List.Forall₂ (fun a b => b = a ∨
        ((∃ t, verify_token_access token_str now maxAge db = Except.ok t ∧
            a.id = t.user_id) ∧
         b.id = a.id ∧ b.email = a.email ∧ b.hashed_password = a.hashed_password ∧
         b.is_active = a.is_active ∧ b.is_admin = a.is_admin ∧
         b = applyCredits a now))
      db.users (get_current_user token_str now maxAge db).1.users := by
  constructor
  · exact resolveStep_tokens token_str maxAge db now
  · cases hv : verify_token_access token_str now maxAge db with
    | error e =>
      rw [get_current_user_no_token hv]
      exact List.forall₂_same.mpr (fun x _ => Or.inl rfl)
    | ok t =>
      cases hu : lookupUser t.user_id db.users with
      | none =>
        rw [get_current_user_no_user hv hu]
        exact List.forall₂_same.mpr (fun x _ => Or.inl rfl)
      | some u =>
        rw [get_current_user_eq hv hu]
        dsimp only
        unfold updateUsers
        apply forall₂_of_map
        intro x _
        by_cases hxid : x.id == t.user_id
        · right
          rw [if_pos hxid]
          exact ⟨⟨t, rfl, by simpa using hxid⟩, applyCredits_id x now,
            applyCredits_email x now, applyCredits_hashed_password x now,
            applyCredits_is_active x now, applyCredits_is_admin x now, rfl⟩
        · left
          rw [if_neg hxid]

/-- C10: `get_current_admin` first performs full identity resolution with its
committed credit side effects and propagates its state and errors; a resolved
non-admin user (even active and freshly credited) yields 403 on the mutated
state, and a resolved admin user is returned unchanged. -/
theorem admin_resolution_characterization (token_str : String) (now maxAge : Int)
    (db : DB) :
    (∀ db1 u, get_current_user token_str now maxAge db = (db1, Except.ok u) →
       get_current_admin token_str now maxAge db =
         (db1, if u.is_admin then Except.ok u
               else Except.error ⟨403, "Not authorized. admin privileges required."⟩)) ∧
    (∀ db1 e, get_current_user token_str now maxAge db = (db1, Except.error e) →
       get_current_admin token_str now maxAge db = (db1, Except.error e)) ∧
    (∀ t u, verify_token_access token_str now maxAge db = Except.ok t →
       lookupUser t.user_id db.users = some u →
       u.is_active = true → u.is_admin = false →
       get_current_admin token_str now maxAge db =
         ({ db with users := updateUsers t.user_id now db.users },
          Except.error ⟨403, "Not authorized. admin privileges required."⟩)) := by
  refine ⟨?_, ?_, ?_⟩
  · intro db1 u hg
    unfold get_current_admin
    rw [hg]
    by_cases ha : u.is_admin <;> simp [ha]
  · intro db1 e hg
    unfold get_current_admin
    rw [hg]
  · intro t u ht hu hact hadmin
    have hg : get_current_user token_str now maxAge db =
        ({ db with users := updateUsers t.user_id now db.users },
         Except.ok (applyCredits u now)) := by
      rw [get_current_user_eq ht hu, hact]
      rfl
    unfold get_current_admin
    rw [hg]
    dsimp only
    rw [applyCredits_is_admin, hadmin]
    rfl

/-- Witness for C10: the fixture user is active but not admin; admin
resolution fails 403 while the mutated state is committed. -/
theorem admin_resolution_characterization_witness :
    get_current_admin "tok123" 2000 30 sampleDB =
      ({ sampleDB with users := updateUsers 1 2000 sampleDB.users },
       Except.error ⟨403, "Not authorized. admin privileges required."⟩) :=
  (admin_resolution_characterization "tok123" 2000 30 sampleDB).2.2 sampleToken
    sampleUser rfl rfl rfl rfl
